import Mathlib

/-!
Formal verification of the MLPRALS self-assessment tool's core logic.

The Python source is shallowly embedded: Python `int` becomes `Int`,
Python `float` becomes `ℚ` (all float values occurring in the verified
computations are small and exactly representable, and every comparison or
floor taken in the source is exact on this domain), Python dicts become
association lists `List (String × α)` that preserve insertion order, and
Python string keys stay `String`.
-/

namespace MLPRALS

/-! ## Python dict primitives (insertion-ordered association lists) -/

/-- `d.get(k)` / `d[k]`: the value at the first (unique) binding of `k`. -/
def dictGet {α : Type} (m : List (String × α)) (k : String) : Option α :=
  (m.find? (fun p => p.1 == k)).map (fun p => p.2)

/-- `d.get(k, default)`. -/
def dictGetD {α : Type} (m : List (String × α)) (k : String) (d : α) : α :=
  (dictGet m k).getD d

/-- `d[k] = v`: replace the first binding in place if `k` is present, else
append (a Python dict holds each key once, so this is dict assignment). -/
def dictSet {α : Type} : List (String × α) → String → α → List (String × α)
  | [], k, v => [(k, v)]
  | p :: rest, k, v => if p.1 == k then (k, v) :: rest else p :: dictSet rest k v

/-! ## domain/eligibility.py -/

/-- `is_sme` as implemented: `(employees < 250) and ((turnover_m <= 50.0) and
(balance_m <= 43.0))`.  Note the second connective in the source is `and`,
although the docstring there announces `or`. -/
def is_sme (employees : Int) (turnover_m balance_m : ℚ) : Bool :=
  decide (employees < 250) && (decide (turnover_m ≤ 50) && decide (balance_m ≤ 43))

/-- The predicate the docstring of `is_sme` (and the spec) announce:
`(employees < 250) AND (turnover ≤ 50 OR balance_sheet ≤ 43)`. -/
def is_sme_documented (employees : Int) (turnover_m balance_m : ℚ) : Bool :=
  decide (employees < 250) && (decide (turnover_m ≤ 50) || decide (balance_m ≤ 43))

/-! ## domain/scoring.py -/

/-- `floor_avg(levels) = int(math.floor(sum(levels) / len(levels)))`. -/
def floor_avg (levels : List Int) : Int :=
  ⌊(levels.sum : ℚ) / (levels.length : ℚ)⌋

/-- `normalize_level(level) = (level - 1) / 4.0`. -/
def normalize_level (level : Int) : ℚ :=
  (level - 1) / 4

/-- `overall_level_from_nmrs(nmrs) = 1 + int(math.floor(4 * nmrs + 1e-9))`. -/
def overall_level_from_nmrs (nmrs : ℚ) : Int :=
  1 + ⌊4 * nmrs + 1 / 1000000000⌋

/-- `readiness_badge`: the five-entry dict lookup (the Python dict raises on a
level outside 1–5; all verified uses stay inside 1–5, where the embedding
agrees with the source). -/
def readiness_badge (level : Int) : String :=
  if level = 1 then "Very low"
  else if level = 2 then "Low"
  else if level = 3 then "Medium"
  else if level = 4 then "High"
  else if level = 5 then "Very high"
  else ""

/-- `level_label(level) = f"Level {level} – {readiness_badge(level)}"`
(f-string concatenation written out). -/
def level_label (level : Int) : String :=
  "Level " ++ toString level ++ " – " ++ readiness_badge level

/-- `suggest_level(a, b, c)`: score = number of true checkboxes, then the
explicit ladder 0→1, 1→2, 2→3, otherwise 4. -/
def suggest_level (a b c : Bool) : Int :=
  let score : Int := (cond a 1 0) + (cond b 1 0) + (cond c 1 0)
  if score = 0 then 1
  else if score = 1 then 2
  else if score = 2 then 3
  else 4

/-- `maybe_level_5(real_time, base) = 5 if real_time and base >= 4 else base`. -/
def maybe_level_5 (real_time : Bool) (base : Int) : Int :=
  if real_time && decide (base ≥ 4) then 5 else base

/-- `compute_suggested_level(a, b, c, rt)`. -/
def compute_suggested_level (a b c rt : Bool) : Int :=
  maybe_level_5 rt (suggest_level a b c)

/-- Number of true values among the three checkboxes, as the claims count it. -/
def boolCount (a b c : Bool) : Int :=
  (cond a 1 0) + (cond b 1 0) + (cond c 1 0)

/-! ## config/thresholds.py -/

/-- `MINIMUM_LEVELS`: the static per-dimension minimum thresholds. -/
def MINIMUM_LEVELS : List (String × Int) :=
  [("1. Data Readiness", 4),
   ("2. System & IT Maturity", 3),
   ("3. Organizational & Cultural Readiness", 3),
   ("4. Business Process Readiness", 3),
   ("5. Strategic Alignment", 3),
   ("6. Security & Regulatory Compliance", 3),
   ("7. External Dependencies & Ecosystem", 3),
   ("8. Scalability & Long-Term Viability", 3)]

/-! ## application/evaluate_assessment.py -/

/-- The dict returned by `evaluate_assessment`, as a structure. -/
structure EvalResult where
  nmrs : ℚ
  overall_level : Int
  ml_ready : Bool
  meets_minimums : Bool
  category_levels : List (String × Int)
  category_normalized : List (String × ℚ)

/-- `evaluate_assessment(responses, minimum_levels)`: per-dimension floor
averages, their normalizations, the mean normalized score (0.0 when
`responses` is empty), the flat ML-ready rule and the per-dimension minimum
comparison. -/
def evaluate_assessment (responses : List (String × List (String × Int)))
    (minimum_levels : List (String × Int)) : EvalResult :=
  let category_levels : List (String × Int) :=
    responses.map (fun p => (p.1, floor_avg (p.2.map (fun q => q.2))))
  let category_normalized : List (String × ℚ) :=
    category_levels.map (fun p => (p.1, normalize_level p.2))
  let nmrs : ℚ :=
    if category_normalized.isEmpty then 0
    else (category_normalized.map (fun p => p.2)).sum / (category_normalized.length : ℚ)
  let overall_level := overall_level_from_nmrs nmrs
  let data_ok : Bool := decide (dictGetD category_levels "1. Data Readiness" 1 ≥ 4)
  let all_ok : Bool :=
    if category_levels.isEmpty then false
    else category_levels.all (fun p => decide (p.2 ≥ 3))
  let ml_ready := data_ok && all_ok
  let meets_minimums : Bool :=
    minimum_levels.all (fun p => decide (dictGetD category_levels p.1 0 ≥ p.2))
  { nmrs := nmrs
    overall_level := overall_level
    ml_ready := ml_ready
    meets_minimums := meets_minimums
    category_levels := category_levels
    category_normalized := category_normalized }

/-! ## domain/recommendations.py -/

/-- `action_hint(category, concept, from_level, to_level)`: the generic
four-entry hint table, with the level-2/3 entries overridden for the known
high-leverage concepts of categories "1.", "6." and "4.", then
`generic.get(from_level, fallback)`. -/
def action_hint (category concept : String) (from_level to_level : Int) : String :=
  let data_over := category.startsWith "1." &&
    (concept == "Data Consistency & Quality" || concept == "Data Integration" ||
     concept == "Historical Data")
  let sec_over := category.startsWith "6." &&
    (concept == "Access Control & Authentication" || concept == "Cybersecurity Measures" ||
     concept == "Data Protection & Privacy")
  let proc_over := category.startsWith "4." &&
    (concept == "Process Standardization" || concept == "Performance Monitoring" ||
     concept == "Data-Driven Decisions")
  let g2 :=
    if proc_over then "Write short SOPs and define KPIs; review them on a fixed cadence."
    else if sec_over then
      "Implement RBAC basics and enforce MFA; document and communicate security procedures."
    else if data_over then
      "Define data standards and validation rules; standardize identifiers, formats, and required fields."
    else "Standardize: define ownership, rules, and a repeatable routine."
  let g3 :=
    if proc_over then "Embed dashboards/alerts into daily work; assign owners and escalation routines."
    else if sec_over then
      "Add logging/audit trails, monitoring, routine vulnerability checks, and an incident response playbook."
    else if data_over then
      "Add automated checks (outliers/missing), centralize datasets, and stabilize integrations."
    else "Automate and integrate into daily workflows (dashboards, checks, stable integrations)."
  if from_level = 1 then "Move from ad-hoc/manual to basic documented and digital practice."
  else if from_level = 2 then g2
  else if from_level = 3 then g3
  else if from_level = 4 then
    "Scale and embed into governance: monitoring, feedback loops, continuous improvement."
  else
    "Improve from Level " ++ toString from_level ++ " toward Level " ++ toString to_level ++
      " with structured steps."

/-- Python `range(a, b)` over integers. -/
def intRange (a b : Int) : List Int :=
  (List.range (b - a).toNat).map (fun (k : Nat) => a + (k : Int))

/-- The `steps` list built for one concept below the minimum: one line
`f"{step_from} → {step_to}: {action_hint(...)}"` per `step_from` in
`range(lvl, target)`, with `step_to = step_from + 1`. -/
def concept_steps (cat concept : String) (lvl target : Int) : List String :=
  (intRange lvl target).map (fun step_from =>
    toString step_from ++ " → " ++ toString (step_from + 1) ++ ": " ++
      action_hint cat concept step_from (step_from + 1))

/-- The item appended for one concept below the minimum:
`f"**{concept} (currently Level {lvl})**\n- " + "\n- ".join(steps)`. -/
def concept_block (cat concept : String) (lvl target : Int) : String :=
  "**" ++ concept ++ " (currently Level " ++ toString lvl ++ ")**\n- " ++
    String.intercalate "\n- " (concept_steps cat concept lvl target)

/-- Stable insertion used to embed Python's stable `sorted(..., key=λx. x[1])`:
an element is inserted after every earlier element whose key is strictly
smaller, and before equal keys coming from later positions.  A stable
ascending sort is uniquely determined by the key order, so this agrees with
the source's Timsort. -/
def insertByLevel (x : String × Int) : List (String × Int) → List (String × Int)
  | [] => [x]
  | y :: ys => if y.2 < x.2 then y :: insertByLevel x ys else x :: y :: ys

/-- `sorted(concepts.items(), key=lambda x: x[1])`. -/
def pySortedByLevel : List (String × Int) → List (String × Int)
  | [] => []
  | x :: xs => insertByLevel x (pySortedByLevel xs)

/-- First element with minimal level together with the rest of the list in
original order; computes the "lowest level, ties broken by original order"
selection used by the spec's wording. -/
def minFirst : List (String × Int) → Option ((String × Int) × List (String × Int))
  | [] => none
  | x :: xs =>
    match minFirst xs with
    | none => some (x, [])
    | some (m, rest) => if x.2 ≤ m.2 then some (x, xs) else some (m, x :: rest)

/-- Modelled from the spec's words: "the two Concepts with lowest levels
(ties broken by original bank order)" — take the first minimal element, then
the first minimal element of what remains. -/
def two_lowest_by_bank_order (concepts : List (String × Int)) : List String :=
  match minFirst concepts with
  | none => []
  | some (m1, rest) =>
    match minFirst rest with
    | none => [m1.1]
    | some (m2, _) => [m1.1, m2.1]

/-- One dimension's entry in the output of `advanced_recommendations`. -/
structure RecOut where
  status : String
  progress : ℚ
  items : List String

/-- The body of the `for cat, concepts in responses.items()` loop of
`advanced_recommendations`, for one dimension.  `category_levels[cat]` in the
source raises on a missing key; the embedding uses default 0 and every
verified use supplies the key. -/
def rec_for_category (category_levels minimums : List (String × Int))
    (cat : String) (concepts : List (String × Int)) : RecOut :=
  let Ri := dictGetD category_levels cat 0
  let target := dictGetD minimums cat 3
  let gap := target - Ri
  if gap ≤ 0 then
    { status := "✅ Meets minimum (current " ++ level_label Ri ++ " ≥ minimum " ++
        level_label target ++ ")."
      progress := 1
      items :=
        ["Stability should be maintained (avoid introducing new instability).",
         "Monitoring and documentation can be strengthened to preserve consistency."] }
  else
    let weakest_sorted := pySortedByLevel concepts
    let weakest_names := (weakest_sorted.take 2).map (fun q => q.1)
    let items :=
      ["**Gap to minimum:** current " ++ level_label Ri ++ " → minimum " ++
         level_label target ++ " (needs +" ++ toString gap ++ ").",
       "**Priority concepts:** " ++ String.intercalate ", " weakest_names ++
         " (largest contributors to the gap)."] ++
      (weakest_sorted.filter (fun q => q.2 < target)).map
        (fun q => concept_block cat q.1 q.2 target)
    { status := "⚠️ Below minimum (current " ++ level_label Ri ++ " < minimum " ++
        level_label target ++ ")."
      progress := if 0 < target then max 0 (min 1 ((Ri : ℚ) / (target : ℚ))) else 0
      items := items }

/-- `advanced_recommendations(responses, category_levels, minimums)`. -/
def advanced_recommendations (responses : List (String × List (String × Int)))
    (category_levels : List (String × Int)) (minimums : List (String × Int)) :
    List (String × RecOut) :=
  responses.map (fun p => (p.1, rec_for_category category_levels minimums p.1 p.2))

/-! ## utils/keys.py -/

/-- `get_qkey(category, concept) = f"{category}::{concept}"`. -/
def get_qkey (category concept : String) : String :=
  category ++ "::" ++ concept

/-- `get_override_key(category, concept)`. -/
def get_override_key (category concept : String) : String :=
  "override::" ++ category ++ "::" ++ concept

/-- `get_override_level_key(category, concept)`. -/
def get_override_level_key (category concept : String) : String :=
  "override_level::" ++ category ++ "::" ++ concept

/-- `get_help_key(category, concept, item)`. -/
def get_help_key (category concept item : String) : String :=
  "help::" ++ category ++ "::" ++ concept ++ "::" ++ item

/-- `get_none_key(category, concept)`. -/
def get_none_key (category concept : String) : String :=
  "help::" ++ category ++ "::" ++ concept ++ "::none"

/-! ## infrastructure/csv_repository.py

A DataFrame cell holds a Python string, bool, int, float or `None`; a
session-state value holds a bool, int, float, string or optional bool (the
value shapes this application ever stores). -/

/-- One Python value inside a DataFrame cell. -/
inductive Cell where
  | str (s : String)
  | bool (b : Bool)
  | int (n : Int)
  | rat (q : ℚ)
  | pynone
deriving DecidableEq

/-- One Python value inside `st.session_state`. -/
inductive Value where
  | vBool (b : Bool)
  | vInt (n : Int)
  | vRat (q : ℚ)
  | vStr (s : String)
  | vOptBool (b : Option Bool)
deriving DecidableEq

/-- Python `str(x)` on a cell.  (`str` of a float is only ever taken by the
code on cells the claims never inspect textually; `toString` on `ℚ` stands in
for the float repr there.) -/
def pyStr : Cell → String
  | .str s => s
  | .bool b => if b then "True" else "False"
  | .int n => toString n
  | .rat q => toString q
  | .pynone => "None"

/-- Python `int(q)` on a float: truncation toward zero. -/
def pyIntOfFloat (q : ℚ) : Int :=
  q.num.tdiv q.den

/-- Python `s.strip()` (whitespace at both ends removed). -/
def pyStrip (s : String) : String :=
  String.mk (((s.toList.dropWhile Char.isWhitespace).reverse.dropWhile
    Char.isWhitespace).reverse)

/-- Python `s.lower()`. -/
def pyLower (s : String) : String :=
  String.mk (s.toList.map Char.toLower)

/-- Python `float(x)` on a decimal string (`None` when `float` would raise).
The source data never uses exponent/inf/nan literal forms, which `float`
would also accept. -/
def parseFloat? (s : String) : Option ℚ :=
  let cs := (pyStrip s).toList
  let signBody : Bool × List Char :=
    match cs with
    | '-' :: rest => (true, rest)
    | '+' :: rest => (false, rest)
    | _ => (false, cs)
  let neg := signBody.1
  let body := signBody.2
  let digits? : List Char → Option Nat := fun w =>
    if w ≠ [] ∧ w.all (fun ch => ch.isDigit) then
      some (w.foldl (fun acc ch => acc * 10 + (ch.toNat - 48)) 0)
    else Option.none
  let signed : ℚ → ℚ := fun q => if neg then -q else q
  match body.span (fun ch => ch ≠ '.') with
  | (w, []) => (digits? w).map (fun n => signed n)
  | (w, _ :: f) =>
    if f.contains '.' then Option.none
    else if w = [] ∧ f = [] then Option.none
    else
      match (if w = [] then some 0 else digits? w),
            (if f = [] then some 0 else digits? f) with
      | some a, some b => some (signed ((a : ℚ) + (b : ℚ) / ((10 : ℚ) ^ f.length)))
      | _, _ => Option.none

/-- Python `float(x)` on a cell (`None` when it would raise). -/
def pyFloat? : Cell → Option ℚ
  | .int n => some (n : ℚ)
  | .rat q => some q
  | .bool b => some (if b then 1 else 0)
  | .str s => parseFloat? s
  | .pynone => Option.none

/-- `_to_int_or_none(x)`: `int(float(x))`, `None` on exception.  Note the
truncation: a fractional cell like 3.7 converts to 3. -/
def to_int_or_none (x : Cell) : Option Int :=
  (pyFloat? x).map pyIntOfFloat

/-- `_to_float_or_none(x)`. -/
def to_float_or_none (x : Cell) : Option ℚ :=
  pyFloat? x

/-- `_to_bool(x)`: bools pass through, `None` is false, numbers via
`bool(int(x))`, strings via the truthy vocabulary. -/
def to_bool (x : Cell) : Bool :=
  match x with
  | .bool b => b
  | .pynone => false
  | .int n => decide (n ≠ 0)
  | .rat q => decide (pyIntOfFloat q ≠ 0)
  | .str s =>
    let t := pyLower (pyStrip s)
    t == "true" || t == "1" || t == "yes" || t == "y" || t == "on"

/-- `_to_optional_bool(x)`. -/
def to_optional_bool (x : Cell) : Option Bool :=
  match x with
  | .pynone => Option.none
  | x =>
    let s := pyStrip (pyStr x)
    if s == "" || pyLower s == "nan" then Option.none
    else
      let t := pyLower s
      if t == "true" || t == "1" || t == "yes" || t == "y" || t == "on" then some true
      else if t == "false" || t == "0" || t == "no" || t == "n" || t == "off" then some false
      else Option.none

/-- A pandas DataFrame: column names plus rows of (column, cell) bindings. -/
structure Df where
  columns : List String
  rows : List (List (String × Cell))

/-- Python truthiness of a session value (`bool(value)`). -/
def pyTruthy : Value → Bool
  | .vBool b => b
  | .vInt n => decide (n ≠ 0)
  | .vRat q => decide (q ≠ 0)
  | .vStr s => decide (s ≠ "")
  | .vOptBool (some b) => b
  | .vOptBool Option.none => false

/-- A session value placed raw into a DataFrame cell. -/
def valueToCell : Value → Cell
  | .vBool b => .bool b
  | .vInt n => .int n
  | .vRat q => .rat q
  | .vStr s => .str s
  | .vOptBool (some b) => .bool b
  | .vOptBool Option.none => .pynone

/-- `int(val) if isinstance(val, int) and val in [1,2,3,4,5] else None` on a
session value.  Python's `bool` is a subclass of `int` and `True == 1`, so a
stored `True` passes as level 1. -/
def levelFromValue : Option Value → Option Int
  | some (.vInt n) => if 1 ≤ n ∧ n ≤ 5 then some n else Option.none
  | some (.vBool true) => some 1
  | _ => Option.none

/-- The column order of the exported DataFrame. -/
def EXPORT_COLUMNS : List String :=
  ["Company", "Employees", "Turnover (€mill)", "Balance sheet (€mill)",
   "Eligibility confirmed", "Is SME", "Allow continue non-SME",
   "Sector confirmed", "Is logistics", "Allow continue non-logistics",
   "Dimension", "Concept", "Question",
   "Check A", "Check B", "Check C", "Real-time", "None of the above",
   "Override enabled", "Override level",
   "Final level", "Dimension level", "Minimum level"]

/-- The `global_fields` dict repeated on each exported row. -/
def global_fields (session_state : List (String × Value)) (company : String) :
    List (String × Cell) :=
  let cname :=
    if company ≠ "" then company
    else match dictGet session_state "company_name_loaded" with
      | some (.vStr s) => s
      | _ => ""
  [("Company", .str cname),
   ("Employees", (dictGet session_state "elig_employees").elim (.str "") valueToCell),
   ("Turnover (€mill)", (dictGet session_state "elig_turnover_m").elim (.str "") valueToCell),
   ("Balance sheet (€mill)", (dictGet session_state "elig_balance_m").elim (.str "") valueToCell),
   ("Eligibility confirmed",
     .bool ((dictGet session_state "eligibility_confirmed").elim false pyTruthy)),
   ("Is SME", (dictGet session_state "is_sme").elim (.str "") valueToCell),
   ("Allow continue non-SME",
     .bool ((dictGet session_state "allow_continue_non_sme").elim false pyTruthy)),
   ("Sector confirmed",
     .bool ((dictGet session_state "sector_confirmed").elim false pyTruthy)),
   ("Is logistics", (dictGet session_state "is_logistics").elim (.str "") valueToCell),
   ("Allow continue non-logistics",
     .bool ((dictGet session_state "allow_continue_non_logistics").elim false pyTruthy))]

/-- One exported row for `(dim, concept)`; `concepts` is the dimension's
whole concept list, used for the per-dimension aggregate column.  The bank's
prompt text (the "Question" column) plays no role in scoring or import and is
embedded as the empty string. -/
def export_row (minimum_levels : List (String × Int))
    (session_state : List (String × Value)) (company : String)
    (dim : String) (concepts : List String) (concept : String) :
    List (String × Cell) :=
  let final_levels : List (Option Int) :=
    concepts.map (fun c => levelFromValue (dictGet session_state (get_qkey dim c)))
  let dim_level : Cell :=
    if final_levels.all (fun v => v.isSome) && decide (final_levels ≠ []) then
      .int (Int.fdiv (final_levels.map (fun v => v.getD 0)).sum final_levels.length)
    else .str ""
  let final_level : Cell :=
    (levelFromValue (dictGet session_state (get_qkey dim concept))).elim (.str "")
      (fun n => .int n)
  let a := (dictGet session_state (get_help_key dim concept "a")).elim false pyTruthy
  let b := (dictGet session_state (get_help_key dim concept "b")).elim false pyTruthy
  let c := (dictGet session_state (get_help_key dim concept "c")).elim false pyTruthy
  let rt := (dictGet session_state (get_help_key dim concept "rt")).elim false pyTruthy
  let none_flag := (dictGet session_state (get_none_key dim concept)).elim false pyTruthy
  let override_enabled :=
    (dictGet session_state (get_override_key dim concept)).elim false pyTruthy
  let override_level : Cell :=
    (levelFromValue (dictGet session_state (get_override_level_key dim concept))).elim
      (.str "") (fun n => .int n)
  global_fields session_state company ++
  [("Dimension", .str dim), ("Concept", .str concept), ("Question", .str ""),
   ("Check A", .bool a), ("Check B", .bool b), ("Check C", .bool c),
   ("Real-time", .bool rt), ("None of the above", .bool none_flag),
   ("Override enabled", .bool override_enabled), ("Override level", override_level),
   ("Final level", final_level), ("Dimension level", dim_level),
   ("Minimum level", (dictGet minimum_levels dim).elim (.str "") (fun n => .int n))]

/-- ` build_export_df_partial`: one row per (dimension, concept) pair of the
question bank (the bank is embedded as dimension name → concept names). -/
def build_export_df_partial (question_bank : List (String × List String))
    (minimum_levels : List (String × Int)) (session_state : List (String × Value))
    (company : String) : Df :=
  { columns := EXPORT_COLUMNS
    rows := question_bank.flatMap (fun p =>
      p.2.map (fun c => export_row minimum_levels session_state company p.1 p.2 c)) }

/-- Apply a list of `session_state[k] = v` assignments in order. -/
def applyWrites (s ws : List (String × Value)) : List (String × Value) :=
  ws.foldl (fun acc p => dictSet acc p.1 p.2) s

/-- The global-field assignments performed from the first row of the imported
table (each `if "col" in df.columns` block contributes zero or one
assignment, in source order). -/
def globalWrites (df : Df) : List (String × Value) :=
  match df.rows with
  | [] => []
  | first :: _ =>
    (if "Company" ∈ df.columns then
       let cname := pyStrip (pyStr (dictGetD first "Company" (.str "")))
       if cname ≠ "" ∧ pyLower cname ≠ "nan" then
         [("company_name_loaded", Value.vStr cname)]
       else []
     else []) ++
    (if "Employees" ∈ df.columns then
       (to_int_or_none (dictGetD first "Employees" .pynone)).elim []
         (fun v => [("elig_employees", Value.vInt v)])
     else []) ++
    (if "Turnover (€mill)" ∈ df.columns then
       (to_float_or_none (dictGetD first "Turnover (€mill)" .pynone)).elim []
         (fun v => [("elig_turnover_m", Value.vRat v)])
     else []) ++
    (if "Balance sheet (€mill)" ∈ df.columns then
       (to_float_or_none (dictGetD first "Balance sheet (€mill)" .pynone)).elim []
         (fun v => [("elig_balance_m", Value.vRat v)])
     else []) ++
    (if "Eligibility confirmed" ∈ df.columns then
       [("eligibility_confirmed",
         Value.vBool (to_bool (dictGetD first "Eligibility confirmed" (.bool false))))]
     else []) ++
    (if "Is SME" ∈ df.columns then
       [("is_sme", Value.vOptBool (to_optional_bool (dictGetD first "Is SME" .pynone)))]
     else []) ++
    (if "Allow continue non-SME" ∈ df.columns then
       [("allow_continue_non_sme",
         Value.vBool (to_bool (dictGetD first "Allow continue non-SME" (.bool false))))]
     else []) ++
    (if "Sector confirmed" ∈ df.columns then
       [("sector_confirmed",
         Value.vBool (to_bool (dictGetD first "Sector confirmed" (.bool false))))]
     else []) ++
    (if "Is logistics" ∈ df.columns then
       [("is_logistics",
         Value.vOptBool (to_optional_bool (dictGetD first "Is logistics" .pynone)))]
     else []) ++
    (if "Allow continue non-logistics" ∈ df.columns then
       [("allow_continue_non_logistics",
         Value.vBool (to_bool (dictGetD first "Allow continue non-logistics" (.bool false))))]
     else [])

/-- Which level column the import recognizes ("Final level" preferred,
legacy "Selected level" second). -/
def levelColumn (df : Df) : Option String :=
  if "Final level" ∈ df.columns then some "Final level"
  else if "Selected level" ∈ df.columns then some "Selected level"
  else Option.none

/-- `has_checkbox_cols`. -/
def hasCheckboxCols (df : Df) : Bool :=
  ["Check A", "Check B", "Check C", "Real-time", "None of the above"].all
    (fun c => decide (c ∈ df.columns))

/-- `has_override_cols`. -/
def hasOverrideCols (df : Df) : Bool :=
  ["Override enabled", "Override level"].all (fun c => decide (c ∈ df.columns))

/-- The level read from one row via the recognized level column. -/
def rowLevel (level_col : Option String) (row : List (String × Cell)) : Option Int :=
  match level_col with
  | some col => to_int_or_none (dictGetD row col .pynone)
  | Option.none => Option.none

/-- The per-question assignments of one matched row: checkbox states (when
the checkbox columns are present — the app always passes the key builders),
override state, then the final/selected level when it is an integer 1–5. -/
def rowWritesKnown (level_col : Option String) (has_checkbox has_override : Bool)
    (row : List (String × Cell)) (dim concept : String) : List (String × Value) :=
  (if has_checkbox then
     [(get_help_key dim concept "a",
        Value.vBool (to_bool (dictGetD row "Check A" (.bool false)))),
      (get_help_key dim concept "b",
        Value.vBool (to_bool (dictGetD row "Check B" (.bool false)))),
      (get_help_key dim concept "c",
        Value.vBool (to_bool (dictGetD row "Check C" (.bool false)))),
      (get_help_key dim concept "rt",
        Value.vBool (to_bool (dictGetD row "Real-time" (.bool false)))),
      (get_none_key dim concept,
        Value.vBool (to_bool (dictGetD row "None of the above" (.bool false))))]
   else []) ++
  (if has_override then
     (get_override_key dim concept,
       Value.vBool (to_bool (dictGetD row "Override enabled" (.bool false)))) ::
     ((to_int_or_none (dictGetD row "Override level" .pynone)).elim []
       (fun v =>
         if 1 ≤ v ∧ v ≤ 5 then [(get_override_level_key dim concept, Value.vInt v)]
         else []))
   else []) ++
  (match rowLevel level_col row with
   | some v => if 1 ≤ v ∧ v ≤ 5 then [(get_qkey dim concept, Value.vInt v)] else []
   | Option.none => [])

/-- All assignments of one row: unknown dimension/concept rows are skipped. -/
def rowWrites (question_bank : List (String × List String)) (level_col : Option String)
    (has_checkbox has_override : Bool) (row : List (String × Cell)) :
    List (String × Value) :=
  let dim := pyStrip (pyStr (dictGetD row "Dimension" .pynone))
  let concept := pyStrip (pyStr (dictGetD row "Concept" .pynone))
  match dictGet question_bank dim with
  | Option.none => []
  | some concepts =>
    if concept ∈ concepts then rowWritesKnown level_col has_checkbox has_override row dim concept
    else []

/-- Contribution of one row to the `loaded` counter. -/
def rowLoaded (question_bank : List (String × List String)) (level_col : Option String)
    (has_checkbox : Bool) (row : List (String × Cell)) : Nat :=
  let dim := pyStrip (pyStr (dictGetD row "Dimension" .pynone))
  let concept := pyStrip (pyStr (dictGetD row "Concept" .pynone))
  match dictGet question_bank dim with
  | Option.none => 0
  | some concepts =>
    if concept ∈ concepts then
      match rowLevel level_col row with
      | some v => if 1 ≤ v ∧ v ≤ 5 then 1 else if has_checkbox then 1 else 0
      | Option.none => if has_checkbox then 1 else 0
    else 0

/-- The per-row loop of the import, threading the session state. -/
def processRows (question_bank : List (String × List String)) (level_col : Option String)
    (has_checkbox has_override : Bool) (s : List (String × Value))
    (rows : List (List (String × Cell))) : List (String × Value) :=
  rows.foldl
    (fun acc row => applyWrites acc (rowWrites question_bank level_col has_checkbox has_override row))
    s

/-- The company name returned by the import (read from the first row). -/
def importCompanyName (df : Df) : Option String :=
  match df.rows with
  | [] => Option.none
  | first :: _ =>
    if "Company" ∈ df.columns then
      let cname := pyStrip (pyStr (dictGetD first "Company" (.str "")))
      if cname ≠ "" ∧ pyLower cname ≠ "nan" then some cname else Option.none
    else Option.none

/-- `auto_load_answers_from_csv(question_bank, session_state, df, ...)`:
raises (`.error`) when a required column is missing, otherwise loads global
fields from the first row, then every recognized per-question row, and
returns the new state, the loaded count and the company name. -/
def auto_load_answers_from_csv (question_bank : List (String × List String))
    (session_state : List (String × Value)) (df : Df) :
    Except String (List (String × Value) × Nat × Option String) :=
  if "Dimension" ∈ df.columns ∧ "Concept" ∈ df.columns then
    let s0 := applyWrites session_state (globalWrites df)
    let lc := levelColumn df
    let hc := hasCheckboxCols df
    let ho := hasOverrideCols df
    let s1 := processRows question_bank lc hc ho s0 df.rows
    let loaded := (df.rows.map (fun row => rowLoaded question_bank lc hc row)).sum
    .ok (s1, loaded, importCompanyName df)
  else
    .error "Missing required columns: Dimension and/or Concept"

/-! ## Key bookkeeping used to state the CSV claims -/

/-- All (dimension, concept) pairs of the bank, in bank order. -/
def bank_pairs (question_bank : List (String × List String)) : List (String × String) :=
  question_bank.flatMap (fun p => p.2.map (fun c => (p.1, c)))

/-- The answer keys of the bank. -/
def qkeys (question_bank : List (String × List String)) : List String :=
  (bank_pairs question_bank).map (fun p => get_qkey p.1 p.2)

/-- The global session keys the import may write. -/
def global_state_keys : List String :=
  ["company_name_loaded", "elig_employees", "elig_turnover_m", "elig_balance_m",
   "eligibility_confirmed", "is_sme", "allow_continue_non_sme",
   "sector_confirmed", "is_logistics", "allow_continue_non_logistics"]

/-- Every non-answer key the import may write: checkbox, none, override and
override-level keys of bank pairs, plus the global keys. -/
def other_write_keys (question_bank : List (String × List String)) : List String :=
  (bank_pairs question_bank).flatMap (fun p =>
    [get_help_key p.1 p.2 "a", get_help_key p.1 p.2 "b", get_help_key p.1 p.2 "c",
     get_help_key p.1 p.2 "rt", get_none_key p.1 p.2,
     get_override_key p.1 p.2, get_override_level_key p.1 p.2]) ++
  global_state_keys

/-- A well-formed bank for key purposes: distinct dimension names, distinct
answer keys, answer keys disjoint from every other writable key, and names
invariant under `strip()` (all true of the application's bank). -/
def bank_keys_ok (question_bank : List (String × List String)) : Prop :=
  (question_bank.map (fun p => p.1)).Nodup ∧
  (qkeys question_bank).Nodup ∧
  (∀ k ∈ qkeys question_bank, k ∉ other_write_keys question_bank) ∧
  (∀ p ∈ question_bank, pyStrip p.1 = p.1 ∧ ∀ c ∈ p.2, pyStrip c = c)

instance (question_bank : List (String × List String)) :
    Decidable (bank_keys_ok question_bank) := by
  unfold bank_keys_ok
  infer_instance

/-- Row `row` addresses the bank pair `(d, c)`. -/
def rowMatches (row : List (String × Cell)) (d c : String) : Prop :=
  pyStrip (pyStr (dictGetD row "Dimension" .pynone)) = d ∧
  pyStrip (pyStr (dictGetD row "Concept" .pynone)) = c

instance (row : List (String × Cell)) (d c : String) : Decidable (rowMatches row d c) := by
  unfold rowMatches
  infer_instance

/-- The answered level stored for `(d, c)`: `some l` exactly when the session
holds an `int` level 1–5 under the answer key. -/
def answeredLevel (session : List (String × Value)) (d c : String) : Option Int :=
  match dictGet session (get_qkey d c) with
  | some (.vInt n) => if 1 ≤ n ∧ n ≤ 5 then some n else Option.none
  | _ => Option.none

end MLPRALS

/-! ## Claims about eligibility and scoring -/

open MLPRALS

/-- C1: the claim says `is_sme` is `employees < 250 AND (turnover ≤ 50 OR
balance ≤ 43)` and that `employees < 250, turnover > 50, balance ≤ 43` is an
SME.  The code joins the two financial ceilings with `and`, contradicting its
own docstring: at employees = 100, turnover = 60, balance = 40 the code
returns `false` while the documented predicate returns `true`. -/
theorem C1_is_sme_and_vs_or :
    is_sme 100 60 40 = false ∧ is_sme_documented 100 60 40 = true := by
  constructor <;> rfl

/-- C3: `compute_suggested_level` returns `count + 1` where `count` is the
number of true checkboxes, except that it returns 5 exactly when `rt` is true
and `count + 1 ≥ 4`; in particular `rt` alone yields 1, and one checkbox plus
`rt` yields 2. -/
theorem C3_compute_suggested_level_ladder :
    (∀ a b c rt : Bool,
        (compute_suggested_level a b c rt = 5 ↔
          (rt = true ∧ boolCount a b c + 1 ≥ 4)) ∧
        (¬ (rt = true ∧ boolCount a b c + 1 ≥ 4) →
          compute_suggested_level a b c rt = boolCount a b c + 1)) ∧
    compute_suggested_level false false false true = 1 ∧
    compute_suggested_level true false false true = 2 := by
  refine ⟨?_, by rfl, by rfl⟩
  intro a b c rt
  cases a <;> cases b <;> cases c <;> cases rt <;>
    simp [compute_suggested_level, suggest_level, maybe_level_5, boolCount]

/-- C4: on a list of exactly five levels, `floor_avg` is the floor (toward
negative infinity, i.e. `Int.fdiv`) of the sum divided by 5; in particular
`floor_avg [1,2,3,4,5] = 3` and `floor_avg [1,1,1,1,2] = 1`. -/
theorem C4_floor_avg_is_floor_division (levels : List Int)
    (h5 : levels.length = 5) (_hrange : ∀ x ∈ levels, 1 ≤ x ∧ x ≤ 5) :
    floor_avg levels = Int.fdiv levels.sum 5 ∧
    floor_avg [1, 2, 3, 4, 5] = 3 ∧
    floor_avg [1, 1, 1, 1, 2] = 1 := by
  refine ⟨?_, ?_, ?_⟩
  · have h : floor_avg levels = ⌊(levels.sum : ℚ) / ((5 : ℕ) : ℚ)⌋ := by
      simp [floor_avg, h5]
    rw [h, Rat.floor_intCast_div_natCast]
    rw [Int.fdiv_eq_ediv _ (by norm_num)]
    rfl
  · show (⌊(15 : ℚ) / (5 : ℚ)⌋ : Int) = 3
    norm_num
  · show (⌊(6 : ℚ) / (5 : ℚ)⌋ : Int) = 1
    norm_num

/-- Witness for C4 at the concrete input `[1,2,3,4,5]`. -/
theorem C4_floor_avg_is_floor_division_witness :
    ([1, 2, 3, 4, 5] : List Int).length = 5 ∧
      (∀ x ∈ ([1, 2, 3, 4, 5] : List Int), 1 ≤ x ∧ x ≤ 5) ∧
      (floor_avg [1, 2, 3, 4, 5] = Int.fdiv ([1, 2, 3, 4, 5] : List Int).sum 5 ∧
        floor_avg [1, 2, 3, 4, 5] = 3 ∧
        floor_avg [1, 1, 1, 1, 2] = 1) :=
  ⟨by decide, by decide,
    C4_floor_avg_is_floor_division [1, 2, 3, 4, 5] (by decide) (by decide)⟩

/-- C5: for levels 1–5, `normalize_level L = (L-1)/4` and
`overall_level_from_nmrs (normalize_level L) = L`, and an overall score of
exactly 0.75 maps to level 4. -/
theorem C5_normalize_roundtrip (L : Int) (h1 : 1 ≤ L) (h5 : L ≤ 5) :
    normalize_level L = (L - 1) / 4 ∧
    overall_level_from_nmrs (normalize_level L) = L ∧
    overall_level_from_nmrs (3 / 4) = 4 := by
  refine ⟨rfl, ?_, ?_⟩
  · interval_cases L <;>
      simp [normalize_level, overall_level_from_nmrs] <;> norm_num
  · show (1 : Int) + ⌊(4 : ℚ) * (3 / 4) + 1 / 1000000000⌋ = 4
    norm_num

/-- Witness for C5 at level 4. -/
theorem C5_normalize_roundtrip_witness :
    (1 : Int) ≤ 4 ∧ (4 : Int) ≤ 5 ∧
      (normalize_level 4 = ((4 : Int) - 1) / 4 ∧
        overall_level_from_nmrs (normalize_level 4) = 4 ∧
        overall_level_from_nmrs (3 / 4) = 4) :=
  ⟨by decide, by decide, C5_normalize_roundtrip 4 (by decide) (by decide)⟩

/-- C6: with the eight standard dimensions answered, `ml_ready` is true iff
the "1. Data Readiness" level is ≥ 4 and every dimension level is ≥ 3, and
`meets_minimums` is true iff each dimension's level is at least its own
configured minimum from `MINIMUM_LEVELS` (4 for Data Readiness, 3 for the
rest). -/
theorem C6_ml_ready_rule (v1 v2 v3 v4 v5 v6 v7 v8 : List (String × Int)) :
    ((evaluate_assessment
        [("1. Data Readiness", v1),
         ("2. System & IT Maturity", v2),
         ("3. Organizational & Cultural Readiness", v3),
         ("4. Business Process Readiness", v4),
         ("5. Strategic Alignment", v5),
         ("6. Security & Regulatory Compliance", v6),
         ("7. External Dependencies & Ecosystem", v7),
         ("8. Scalability & Long-Term Viability", v8)] MINIMUM_LEVELS).ml_ready = true ↔
      (4 ≤ floor_avg (v1.map (fun q => q.2)) ∧
        (3 ≤ floor_avg (v1.map (fun q => q.2)) ∧
         3 ≤ floor_avg (v2.map (fun q => q.2)) ∧
         3 ≤ floor_avg (v3.map (fun q => q.2)) ∧
         3 ≤ floor_avg (v4.map (fun q => q.2)) ∧
         3 ≤ floor_avg (v5.map (fun q => q.2)) ∧
         3 ≤ floor_avg (v6.map (fun q => q.2)) ∧
         3 ≤ floor_avg (v7.map (fun q => q.2)) ∧
         3 ≤ floor_avg (v8.map (fun q => q.2))))) ∧
    ((evaluate_assessment
        [("1. Data Readiness", v1),
         ("2. System & IT Maturity", v2),
         ("3. Organizational & Cultural Readiness", v3),
         ("4. Business Process Readiness", v4),
         ("5. Strategic Alignment", v5),
         ("6. Security & Regulatory Compliance", v6),
         ("7. External Dependencies & Ecosystem", v7),
         ("8. Scalability & Long-Term Viability", v8)] MINIMUM_LEVELS).meets_minimums = true ↔
      (4 ≤ floor_avg (v1.map (fun q => q.2)) ∧
       3 ≤ floor_avg (v2.map (fun q => q.2)) ∧
       3 ≤ floor_avg (v3.map (fun q => q.2)) ∧
       3 ≤ floor_avg (v4.map (fun q => q.2)) ∧
       3 ≤ floor_avg (v5.map (fun q => q.2)) ∧
       3 ≤ floor_avg (v6.map (fun q => q.2)) ∧
       3 ≤ floor_avg (v7.map (fun q => q.2)) ∧
       3 ≤ floor_avg (v8.map (fun q => q.2)))) := by
  constructor
  · simp [evaluate_assessment, dictGetD, dictGet, List.find?, List.all]
  · simp [evaluate_assessment, MINIMUM_LEVELS, dictGetD, dictGet, List.find?, List.all]

/-- C10: `evaluate_assessment` is total and, on an empty response set with the
standard minimum-levels table, returns nmrs = 0.0, overall_level = 1,
ml_ready = false and meets_minimums = false. -/
theorem C10_empty_responses_defaults :
    (evaluate_assessment [] MINIMUM_LEVELS).nmrs = 0 ∧
    (evaluate_assessment [] MINIMUM_LEVELS).overall_level = 1 ∧
    (evaluate_assessment [] MINIMUM_LEVELS).ml_ready = false ∧
    (evaluate_assessment [] MINIMUM_LEVELS).meets_minimums = false := by
  refine ⟨rfl, ?_, rfl, rfl⟩
  show overall_level_from_nmrs 0 = 1
  show (1 : Int) + ⌊(4 : ℚ) * 0 + 1 / 1000000000⌋ = 1
  norm_num

/-! ## Supporting lemmas on the stable sort used by the recommendation engine -/

theorem insertByLevel_perm (x : String × Int) :
    ∀ l : List (String × Int), List.Perm (insertByLevel x l) (x :: l)
  | [] => List.Perm.refl _
  | y :: ys => by
    by_cases h : y.2 < x.2
    · simp only [insertByLevel, if_pos h]
      exact ((insertByLevel_perm x ys).cons y).trans (List.Perm.swap x y ys)
    · simp only [insertByLevel, if_neg h]
      exact List.Perm.refl _

theorem pySortedByLevel_perm :
    ∀ l : List (String × Int), List.Perm (pySortedByLevel l) l
  | [] => List.Perm.refl _
  | x :: xs =>
    (insertByLevel_perm x (pySortedByLevel xs)).trans ((pySortedByLevel_perm xs).cons x)

theorem minFirst_eq_none : ∀ {l : List (String × Int)}, minFirst l = none → l = []
  | [], _ => rfl
  | x :: xs, h => by
    cases hxs : minFirst xs with
    | none => simp [minFirst, hxs] at h
    | some p =>
      obtain ⟨m, rest⟩ := p
      by_cases hle : x.2 ≤ m.2 <;> simp [minFirst, hxs, hle] at h

theorem pySortedByLevel_minFirst :
    ∀ (l : List (String × Int)) (m : String × Int) (rest : List (String × Int)),
      minFirst l = some (m, rest) → pySortedByLevel l = m :: pySortedByLevel rest
  | [], m, rest, h => by simp [minFirst] at h
  | x :: xs, m, rest, h => by
    cases hxs : minFirst xs with
    | none =>
      have hnil : xs = [] := minFirst_eq_none hxs
      subst hnil
      simp only [minFirst] at h
      obtain ⟨rfl, rfl⟩ : x = m ∧ [] = rest := by
        cases h
        exact ⟨rfl, rfl⟩
      rfl
    | some p =>
      obtain ⟨m0, r0⟩ := p
      have hxs' : pySortedByLevel xs = m0 :: pySortedByLevel r0 :=
        pySortedByLevel_minFirst xs m0 r0 hxs
      simp only [minFirst, hxs] at h
      by_cases hle : x.2 ≤ m0.2
      · rw [if_pos hle] at h
        obtain ⟨rfl, rfl⟩ : x = m ∧ xs = rest := by
          cases h
          exact ⟨rfl, rfl⟩
        show insertByLevel x (pySortedByLevel xs) = x :: pySortedByLevel xs
        rw [hxs']
        simp [insertByLevel, not_lt.mpr hle]
      · rw [if_neg hle] at h
        obtain ⟨rfl, rfl⟩ : m0 = m ∧ x :: r0 = rest := by
          cases h
          exact ⟨rfl, rfl⟩
        show insertByLevel x (pySortedByLevel xs) = m0 :: pySortedByLevel (x :: r0)
        rw [hxs']
        simp [insertByLevel, pySortedByLevel, not_le.mp hle]

theorem pySorted_take_two (l : List (String × Int)) :
    ((pySortedByLevel l).take 2).map (fun q => q.1) = two_lowest_by_bank_order l := by
  cases h1 : minFirst l with
  | none =>
    have hnil := minFirst_eq_none h1
    subst hnil
    rfl
  | some p =>
    obtain ⟨m1, rest⟩ := p
    rw [pySortedByLevel_minFirst l m1 rest h1]
    cases h2 : minFirst rest with
    | none =>
      have hnil := minFirst_eq_none h2
      subst hnil
      simp [two_lowest_by_bank_order, h1, h2, pySortedByLevel]
    | some q =>
      obtain ⟨m2, r2⟩ := q
      rw [pySortedByLevel_minFirst rest m2 r2 h2]
      simp [two_lowest_by_bank_order, h1, h2]

theorem intRange_length (a b : Int) : (intRange a b).length = (b - a).toNat := by
  unfold intRange
  rw [List.length_map, List.length_range]

theorem intRange_getElem? (a b : Int) (k : Nat) (h : k < (b - a).toNat) :
    (intRange a b)[k]? = some (a + k) := by
  unfold intRange
  rw [List.getElem?_map, List.getElem?_range h]
  rfl

/-- C9: for a dimension strictly below its minimum, the recommendation entry
names as priority concepts exactly the two concepts with the lowest levels,
ties broken by original bank order (`two_lowest_by_bank_order`), and for each
concept below the minimum the steps list has one entry per integer from the
concept's current level up to (but excluding) the minimum, the k-th entry
stepping from level `l + k`. -/
theorem C9_priority_concepts_and_steps
    (responses : List (String × List (String × Int)))
    (category_levels minimums : List (String × Int))
    (cat : String) (concepts : List (String × Int)) (Ri target : Int)
    (hmem : (cat, concepts) ∈ responses)
    (hRi : dictGet category_levels cat = some Ri)
    (htar : dictGetD minimums cat 3 = target)
    (hlt : Ri < target) :
    ∃ r, (cat, r) ∈ advanced_recommendations responses category_levels minimums ∧
      r.items[1]? = some ("**Priority concepts:** " ++
        String.intercalate ", " (two_lowest_by_bank_order concepts) ++
        " (largest contributors to the gap).") ∧
      ∀ c l, (c, l) ∈ concepts → l < target →
        concept_block cat c l target ∈ r.items ∧
        (concept_steps cat c l target).length = (target - l).toNat ∧
        ∀ k : Nat, k < (target - l).toNat →
          (concept_steps cat c l target)[k]? =
            some (toString (l + (k : Int)) ++ " → " ++ toString (l + (k : Int) + 1) ++ ": " ++
              action_hint cat c (l + (k : Int)) (l + (k : Int) + 1)) := by
  have hR0 : dictGetD category_levels cat 0 = Ri := by
    simp [dictGetD, hRi]
  have hgap : ¬ (target - Ri ≤ 0) := by omega
  have hitems : (rec_for_category category_levels minimums cat concepts).items =
      ["**Gap to minimum:** current " ++ level_label Ri ++ " → minimum " ++
         level_label target ++ " (needs +" ++ toString (target - Ri) ++ ").",
       "**Priority concepts:** " ++
         String.intercalate ", " (((pySortedByLevel concepts).take 2).map (fun q => q.1)) ++
         " (largest contributors to the gap)."] ++
      ((pySortedByLevel concepts).filter (fun q => decide (q.2 < target))).map
        (fun q => concept_block cat q.1 q.2 target) := by
    simp only [rec_for_category, hR0, htar, if_neg hgap]
  refine ⟨rec_for_category category_levels minimums cat concepts,
    List.mem_map.mpr ⟨(cat, concepts), hmem, rfl⟩, ?_, ?_⟩
  · rw [hitems, pySorted_take_two]
    simp
  · intro c l hc hl
    refine ⟨?_, ?_, ?_⟩
    · rw [hitems]
      refine List.mem_append.mpr (Or.inr ?_)
      exact List.mem_map.mpr
        ⟨(c, l),
         List.mem_filter.mpr
           ⟨(pySortedByLevel_perm concepts).mem_iff.mpr hc, decide_eq_true hl⟩,
         rfl⟩
    · simp only [concept_steps, List.length_map, intRange_length]
    · intro k hk
      simp only [concept_steps, List.getElem?_map, intRange_getElem? l target k hk,
        Option.map_some']

/-- Witness for C9: a Data Readiness dimension at level 2 against minimum 4,
with two tied-lowest concepts. -/
theorem C9_priority_concepts_and_steps_witness :
    (("1. Data Readiness",
        [("Data Consistency & Quality", (2 : Int)), ("Data Integration", 1),
         ("Historical Data", 1), ("Real-Time Data Processing", 3),
         ("Scalability of Data Infrastructure", 5)]) ∈
      ([("1. Data Readiness",
          [("Data Consistency & Quality", (2 : Int)), ("Data Integration", 1),
           ("Historical Data", 1), ("Real-Time Data Processing", 3),
           ("Scalability of Data Infrastructure", 5)])] :
        List (String × List (String × Int)))) ∧
    dictGet [("1. Data Readiness", (2 : Int))] "1. Data Readiness" = some 2 ∧
    dictGetD MINIMUM_LEVELS "1. Data Readiness" 3 = 4 ∧
    (2 : Int) < 4 ∧
    (∃ r, (("1. Data Readiness", r) ∈ advanced_recommendations
        [("1. Data Readiness",
          [("Data Consistency & Quality", (2 : Int)), ("Data Integration", 1),
           ("Historical Data", 1), ("Real-Time Data Processing", 3),
           ("Scalability of Data Infrastructure", 5)])]
        [("1. Data Readiness", (2 : Int))] MINIMUM_LEVELS) ∧
      r.items[1]? = some ("**Priority concepts:** " ++
        String.intercalate ", " (two_lowest_by_bank_order
          [("Data Consistency & Quality", (2 : Int)), ("Data Integration", 1),
           ("Historical Data", 1), ("Real-Time Data Processing", 3),
           ("Scalability of Data Infrastructure", 5)]) ++
        " (largest contributors to the gap).") ∧
      ∀ c l, (c, l) ∈
          [("Data Consistency & Quality", (2 : Int)), ("Data Integration", 1),
           ("Historical Data", 1), ("Real-Time Data Processing", 3),
           ("Scalability of Data Infrastructure", 5)] → l < 4 →
        concept_block "1. Data Readiness" c l 4 ∈ r.items ∧
        (concept_steps "1. Data Readiness" c l 4).length = ((4 : Int) - l).toNat ∧
        ∀ k : Nat, k < ((4 : Int) - l).toNat →
          (concept_steps "1. Data Readiness" c l 4)[k]? =
            some (toString (l + (k : Int)) ++ " → " ++ toString (l + (k : Int) + 1) ++ ": " ++
              action_hint "1. Data Readiness" c (l + (k : Int)) (l + (k : Int) + 1))) :=
  ⟨by decide, by decide, by decide, by decide,
    C9_priority_concepts_and_steps _ _ _ _ _ 2 4
      (by decide) (by decide) (by decide) (by decide)⟩

/-! ## Supporting lemmas: dict assignment and the import fold -/

theorem dictGet_dictSet_self {α : Type} (k : String) (v : α) :
    ∀ s : List (String × α), dictGet (dictSet s k v) k = some v
  | [] => by simp [dictSet, dictGet, List.find?]
  | (k', v') :: rest => by
    by_cases h : k' = k
    · subst h
      simp [dictSet, dictGet, List.find?]
    · have hb : (k' == k) = false := beq_eq_false_iff_ne.mpr h
      simp only [dictSet, hb, if_false, Bool.false_eq_true]
      simp only [dictGet, List.find?, hb]
      exact dictGet_dictSet_self k v rest

theorem dictGet_dictSet_ne {α : Type} (k' k : String) (v : α) (h : k' ≠ k) :
    ∀ s : List (String × α), dictGet (dictSet s k' v) k = dictGet s k
  | [] => by
    simp [dictSet, dictGet, List.find?, beq_eq_false_iff_ne.mpr h]
  | (k'', v'') :: rest => by
    by_cases h2 : k'' = k'
    · subst h2
      simp only [dictSet, beq_self_eq_true, if_true]
      simp only [dictGet, List.find?, beq_eq_false_iff_ne.mpr h]
    · have hb : (k'' == k') = false := beq_eq_false_iff_ne.mpr h2
      simp only [dictSet, hb, if_false, Bool.false_eq_true]
      by_cases h3 : k'' = k
      · subst h3
        simp [dictGet, List.find?]
      · have hb3 : (k'' == k) = false := beq_eq_false_iff_ne.mpr h3
        simp only [dictGet, List.find?, hb3]
        exact dictGet_dictSet_ne k' k v h rest

theorem applyWrites_cons (s : List (String × Value)) (p : String × Value)
    (ws : List (String × Value)) :
    applyWrites s (p :: ws) = applyWrites (dictSet s p.1 p.2) ws := rfl

theorem applyWrites_append (s ws₁ ws₂ : List (String × Value)) :
    applyWrites s (ws₁ ++ ws₂) = applyWrites (applyWrites s ws₁) ws₂ := by
  simp [applyWrites, List.foldl_append]

theorem dictGet_applyWrites_of_ne (k : String) :
    ∀ (ws : List (String × Value)) (s : List (String × Value)),
      (∀ p ∈ ws, p.1 ≠ k) → dictGet (applyWrites s ws) k = dictGet s k
  | [], s, _ => rfl
  | p :: ws, s, h => by
    rw [applyWrites_cons,
      dictGet_applyWrites_of_ne k ws _ (fun q hq => h q (List.mem_cons_of_mem _ hq)),
      dictGet_dictSet_ne _ _ _ (h p (List.mem_cons_self _ _))]

theorem dictGet_applyWrites_last (s ws : List (String × Value)) (k : String) (v : Value) :
    dictGet (applyWrites s (ws ++ [(k, v)])) k = some v := by
  rw [applyWrites_append]
  exact dictGet_dictSet_self k v _

theorem processRows_cons (qb : List (String × List String)) (lc : Option String)
    (hc ho : Bool) (s : List (String × Value)) (row : List (String × Cell))
    (rows : List (List (String × Cell))) :
    processRows qb lc hc ho s (row :: rows) =
      processRows qb lc hc ho (applyWrites s (rowWrites qb lc hc ho row)) rows := rfl

theorem processRows_append (qb : List (String × List String)) (lc : Option String)
    (hc ho : Bool) (s : List (String × Value)) (r₁ r₂ : List (List (String × Cell))) :
    processRows qb lc hc ho s (r₁ ++ r₂) =
      processRows qb lc hc ho (processRows qb lc hc ho s r₁) r₂ := by
  simp [processRows, List.foldl_append]

theorem dictGet_processRows_of_ne (qb : List (String × List String)) (lc : Option String)
    (hc ho : Bool) (k : String) :
    ∀ (rows : List (List (String × Cell))) (s : List (String × Value)),
      (∀ row ∈ rows, ∀ p ∈ rowWrites qb lc hc ho row, p.1 ≠ k) →
      dictGet (processRows qb lc hc ho s rows) k = dictGet s k
  | [], s, _ => rfl
  | row :: rows, s, h => by
    rw [processRows_cons,
      dictGet_processRows_of_ne qb lc hc ho k rows _
        (fun r hr => h r (List.mem_cons_of_mem _ hr)),
      dictGet_applyWrites_of_ne k _ _ (h row (List.mem_cons_self _ _))]

theorem dictGet_mem {α : Type} (m : List (String × α)) (k : String) (v : α)
    (h : dictGet m k = some v) : (k, v) ∈ m := by
  unfold dictGet at h
  cases hf : m.find? (fun p => p.1 == k) with
  | none => rw [hf] at h; simp at h
  | some p =>
    rw [hf] at h
    have hp1 : p.1 = k := by simpa using List.find?_some hf
    have hp2 : p.2 = v := by simpa using h
    have hmem := List.mem_of_find?_eq_some hf
    have : p = (k, v) := Prod.ext hp1 hp2
    rwa [this] at hmem

theorem dictGet_of_mem_nodup {α : Type} :
    ∀ (m : List (String × α)), (m.map (fun p => p.1)).Nodup →
      ∀ {k : String} {v : α}, (k, v) ∈ m → dictGet m k = some v
  | [], _, _, _, hm => by simp at hm
  | (k', v') :: rest, hnd, k, v, hm => by
    rcases List.mem_cons.mp hm with he | hrest
    · injection he with h1 h2
      subst h1
      subst h2
      simp [dictGet, List.find?]
    · by_cases hk : k' = k
      · subst hk
        exfalso
        have : k' ∈ rest.map (fun p => p.1) :=
          List.mem_map.mpr ⟨(k', v), hrest, rfl⟩
        simp only [List.map_cons, List.nodup_cons] at hnd
        exact hnd.1 this
      · have hb : (k' == k) = false := beq_eq_false_iff_ne.mpr hk
        simp only [dictGet, List.find?, hb]
        have hnd' : (rest.map (fun p => p.1)).Nodup := by
          simp only [List.map_cons, List.nodup_cons] at hnd
          exact hnd.2
        exact dictGet_of_mem_nodup rest hnd' hrest

theorem mem_bank_pairs {qb : List (String × List String)} {d : String}
    {cs : List String} {c : String} (hd : (d, cs) ∈ qb) (hc : c ∈ cs) :
    (d, c) ∈ bank_pairs qb :=
  List.mem_flatMap.mpr ⟨(d, cs), hd, List.mem_map.mpr ⟨c, hc, rfl⟩⟩

theorem qkey_mem_qkeys {qb : List (String × List String)} {p : String × String}
    (hp : p ∈ bank_pairs qb) : get_qkey p.1 p.2 ∈ qkeys qb :=
  List.mem_map.mpr ⟨p, hp, rfl⟩

theorem qkey_inj {qb : List (String × List String)} (hnd : (qkeys qb).Nodup)
    {p p' : String × String} (hp : p ∈ bank_pairs qb) (hp' : p' ∈ bank_pairs qb)
    (he : get_qkey p.1 p.2 = get_qkey p'.1 p'.2) : p = p' :=
  List.inj_on_of_nodup_map (by simpa [qkeys] using hnd) hp hp' he

theorem other_key_mem {qb : List (String × List String)} {p : String × String}
    (hp : p ∈ bank_pairs qb) {k : String}
    (hk : k ∈ [get_help_key p.1 p.2 "a", get_help_key p.1 p.2 "b",
      get_help_key p.1 p.2 "c", get_help_key p.1 p.2 "rt", get_none_key p.1 p.2,
      get_override_key p.1 p.2, get_override_level_key p.1 p.2]) :
    k ∈ other_write_keys qb :=
  List.mem_append.mpr (Or.inl (List.mem_flatMap.mpr ⟨p, hp, hk⟩))

theorem rowWritesKnown_key (lc : Option String) (hc ho : Bool)
    (row : List (String × Cell)) (dim con : String) {p : String × Value}
    (hp : p ∈ rowWritesKnown lc hc ho row dim con) :
    p.1 ∈ [get_help_key dim con "a", get_help_key dim con "b", get_help_key dim con "c",
      get_help_key dim con "rt", get_none_key dim con, get_override_key dim con,
      get_override_level_key dim con] ∨
    (p.1 = get_qkey dim con ∧ ∃ v, rowLevel lc row = some v ∧ 1 ≤ v ∧ v ≤ 5) := by
  unfold rowWritesKnown at hp
  rcases List.mem_append.mp hp with hAB | hC
  · rcases List.mem_append.mp hAB with hA | hB
    · left
      split at hA
      · simp only [List.mem_cons, List.not_mem_nil, or_false] at hA
        rcases hA with rfl | rfl | rfl | rfl | rfl <;> simp
      · simp at hA
    · left
      split at hB
      · rcases List.mem_cons.mp hB with rfl | hB'
        · simp
        · cases hoi : to_int_or_none (dictGetD row "Override level" Cell.pynone) with
          | none => simp [hoi] at hB'
          | some v =>
            simp only [hoi, Option.elim] at hB'
            split at hB'
            · simp only [List.mem_singleton] at hB'
              subst hB'
              simp
            · simp at hB'
      · simp at hB
  · right
    cases hlv : rowLevel lc row with
    | none => simp [hlv] at hC
    | some v =>
      simp only [hlv] at hC
      split at hC
      next h15 =>
        simp only [List.mem_singleton] at hC
        subst hC
        exact ⟨rfl, v, rfl, h15⟩
      next => simp at hC

theorem rowWrites_key (qb : List (String × List String)) (lc : Option String)
    (hc ho : Bool) (row : List (String × Cell)) {p : String × Value}
    (hp : p ∈ rowWrites qb lc hc ho row) :
    ∃ cs, dictGet qb (pyStrip (pyStr (dictGetD row "Dimension" Cell.pynone))) = some cs ∧
      pyStrip (pyStr (dictGetD row "Concept" Cell.pynone)) ∈ cs ∧
      p ∈ rowWritesKnown lc hc ho row (pyStrip (pyStr (dictGetD row "Dimension" Cell.pynone)))
        (pyStrip (pyStr (dictGetD row "Concept" Cell.pynone))) := by
  simp only [rowWrites] at hp
  cases hd : dictGet qb (pyStrip (pyStr (dictGetD row "Dimension" Cell.pynone))) with
  | none => simp [hd] at hp
  | some cs =>
    simp only [hd] at hp
    split at hp
    next hcin => exact ⟨cs, rfl, hcin, hp⟩
    next => simp at hp

theorem rowWrites_ne_qkey (qb : List (String × List String)) (lc : Option String)
    (hc ho : Bool) (row : List (String × Cell)) (hok : bank_keys_ok qb)
    {d0 c0 : String} (h0 : (d0, c0) ∈ bank_pairs qb)
    (hx : ¬ rowMatches row d0 c0 ∨
      ∀ v, rowLevel lc row = some v → ¬ (1 ≤ v ∧ v ≤ 5)) :
    ∀ p ∈ rowWrites qb lc hc ho row, p.1 ≠ get_qkey d0 c0 := by
  intro p hp heq
  obtain ⟨cs, hd, hcin, hpk⟩ := rowWrites_key qb lc hc ho row hp
  have hdm : (pyStrip (pyStr (dictGetD row "Dimension" Cell.pynone)), cs) ∈ qb :=
    dictGet_mem _ _ _ hd
  have hpair : (pyStrip (pyStr (dictGetD row "Dimension" Cell.pynone)),
      pyStrip (pyStr (dictGetD row "Concept" Cell.pynone))) ∈ bank_pairs qb :=
    mem_bank_pairs hdm hcin
  rcases rowWritesKnown_key lc hc ho row _ _ hpk with h7 | ⟨hq, v, hv, h15⟩
  · have hint : p.1 ∈ other_write_keys qb := other_key_mem hpair h7
    have hqk : get_qkey d0 c0 ∈ qkeys qb := qkey_mem_qkeys h0
    exact hok.2.2.1 _ hqk (heq ▸ hint)
  · have hpe : (pyStrip (pyStr (dictGetD row "Dimension" Cell.pynone)),
        pyStrip (pyStr (dictGetD row "Concept" Cell.pynone))) = (d0, c0) :=
      qkey_inj hok.2.1 hpair h0 (by rw [← hq, heq])
    injection hpe with hd0 hc0
    rcases hx with hnm | hinv
    · exact hnm ⟨hd0, hc0⟩
    · exact hinv v hv h15

theorem rowWrites_matched (qb : List (String × List String)) (lc : Option String)
    (hc ho : Bool) (row : List (String × Cell)) {d c : String} {cs : List String}
    (hd : dictGet qb d = some cs) (hcin : c ∈ cs) (hm : rowMatches row d c) :
    rowWrites qb lc hc ho row = rowWritesKnown lc hc ho row d c := by
  obtain ⟨h1, h2⟩ := hm
  simp only [rowWrites, h1, h2, hd, if_pos hcin]

theorem dictGet_applyWrites_matched (qb : List (String × List String))
    (lc : Option String) (hc ho : Bool) (row : List (String × Cell))
    (s : List (String × Value)) {d c : String} {cs : List String} {v : Int}
    (hd : dictGet qb d = some cs) (hcin : c ∈ cs) (hm : rowMatches row d c)
    (hv : rowLevel lc row = some v) (h15 : 1 ≤ v ∧ v ≤ 5) :
    dictGet (applyWrites s (rowWrites qb lc hc ho row)) (get_qkey d c) =
      some (Value.vInt v) := by
  rw [rowWrites_matched qb lc hc ho row hd hcin hm]
  unfold rowWritesKnown
  simp only [hv, if_pos h15]
  exact dictGet_applyWrites_last s _ _ _

theorem globalWrites_key (df : Df) {p : String × Value} (hp : p ∈ globalWrites df) :
    p.1 ∈ global_state_keys := by
  unfold globalWrites at hp
  cases hr : df.rows with
  | nil => simp [hr] at hp
  | cons first rest =>
    simp only [hr] at hp
    rcases List.mem_append.mp hp with hp | h10
    rotate_left
    · split at h10
      · simp only [List.mem_singleton] at h10
        subst h10
        simp [global_state_keys]
      · simp at h10
    rcases List.mem_append.mp hp with hp | h9
    rotate_left
    · split at h9
      · simp only [List.mem_singleton] at h9
        subst h9
        simp [global_state_keys]
      · simp at h9
    rcases List.mem_append.mp hp with hp | h8
    rotate_left
    · split at h8
      · simp only [List.mem_singleton] at h8
        subst h8
        simp [global_state_keys]
      · simp at h8
    rcases List.mem_append.mp hp with hp | h7
    rotate_left
    · split at h7
      · simp only [List.mem_singleton] at h7
        subst h7
        simp [global_state_keys]
      · simp at h7
    rcases List.mem_append.mp hp with hp | h6
    rotate_left
    · split at h6
      · simp only [List.mem_singleton] at h6
        subst h6
        simp [global_state_keys]
      · simp at h6
    rcases List.mem_append.mp hp with hp | h5
    rotate_left
    · split at h5
      · simp only [List.mem_singleton] at h5
        subst h5
        simp [global_state_keys]
      · simp at h5
    rcases List.mem_append.mp hp with hp | h4
    rotate_left
    · split at h4
      · cases hfo : to_float_or_none (dictGetD first "Balance sheet (€mill)" Cell.pynone) with
        | none => simp [hfo] at h4
        | some v =>
          simp only [hfo, Option.elim, List.mem_singleton] at h4
          subst h4
          simp [global_state_keys]
      · simp at h4
    rcases List.mem_append.mp hp with hp | h3
    rotate_left
    · split at h3
      · cases hfo : to_float_or_none (dictGetD first "Turnover (€mill)" Cell.pynone) with
        | none => simp [hfo] at h3
        | some v =>
          simp only [hfo, Option.elim, List.mem_singleton] at h3
          subst h3
          simp [global_state_keys]
      · simp at h3
    rcases List.mem_append.mp hp with h1 | h2
    · split at h1
      · split at h1
        · simp only [List.mem_singleton] at h1
          subst h1
          simp [global_state_keys]
        · simp at h1
      · simp at h1
    · split at h2
      · cases hio : to_int_or_none (dictGetD first "Employees" Cell.pynone) with
        | none => simp [hio] at h2
        | some v =>
          simp only [hio, Option.elim, List.mem_singleton] at h2
          subst h2
          simp [global_state_keys]
      · simp at h2

theorem dictGet_globals (df : Df) (s : List (String × Value)) {k : String}
    (hk : k ∉ global_state_keys) :
    dictGet (applyWrites s (globalWrites df)) k = dictGet s k :=
  dictGet_applyWrites_of_ne k _ s (fun _ hp he => hk (he ▸ globalWrites_key df hp))

theorem qkey_not_global {qb : List (String × List String)} (hok : bank_keys_ok qb)
    {d c : String} (h0 : (d, c) ∈ bank_pairs qb) :
    get_qkey d c ∉ global_state_keys := by
  intro hmem
  exact hok.2.2.1 _ (qkey_mem_qkeys h0) (List.mem_append.mpr (Or.inr hmem))

theorem answeredLevel_spec (session : List (String × Value)) (d c : String)
    (h : (answeredLevel session d c).isSome) :
    ∃ l, dictGet session (get_qkey d c) = some (Value.vInt l) ∧ 1 ≤ l ∧ l ≤ 5 := by
  unfold answeredLevel at h
  cases hdg : dictGet session (get_qkey d c) with
  | none => simp [hdg] at h
  | some val =>
    cases val with
    | vInt n =>
      simp only [hdg] at h
      split at h
      next h15 => exact ⟨n, rfl, h15⟩
      next => simp at h
    | vBool b => simp [hdg] at h
    | vRat q => simp [hdg] at h
    | vStr s' => simp [hdg] at h
    | vOptBool b => simp [hdg] at h

theorem import_ok (qb : List (String × List String)) (s : List (String × Value))
    (df : Df) (hcols : "Dimension" ∈ df.columns ∧ "Concept" ∈ df.columns) :
    auto_load_answers_from_csv qb s df =
      .ok (processRows qb (levelColumn df) (hasCheckboxCols df) (hasOverrideCols df)
            (applyWrites s (globalWrites df)) df.rows,
          (df.rows.map (fun row => rowLoaded qb (levelColumn df) (hasCheckboxCols df) row)).sum,
          importCompanyName df) := by
  simp only [auto_load_answers_from_csv, if_pos hcols]

theorem import_state_untouched (qb : List (String × List String))
    (s : List (String × Value)) (df : Df) (hok : bank_keys_ok qb)
    {d c : String} (h0 : (d, c) ∈ bank_pairs qb)
    (hnm : ∀ row ∈ df.rows, ¬ rowMatches row d c ∨
      ∀ v, rowLevel (levelColumn df) row = some v → ¬ (1 ≤ v ∧ v ≤ 5)) :
    dictGet (processRows qb (levelColumn df) (hasCheckboxCols df) (hasOverrideCols df)
        (applyWrites s (globalWrites df)) df.rows) (get_qkey d c) =
      dictGet s (get_qkey d c) := by
  rw [dictGet_processRows_of_ne qb _ _ _ _ df.rows _
    (fun row hr => rowWrites_ne_qkey qb _ _ _ row hok h0 (hnm row hr))]
  exact dictGet_globals df s (qkey_not_global hok h0)

theorem import_state_matched (qb : List (String × List String))
    (s : List (String × Value)) (df : Df) (hok : bank_keys_ok qb)
    {d c : String} {cs : List String} {v : Int}
    (hd : (d, cs) ∈ qb) (hc : c ∈ cs)
    {rows₁ row rows₂} (hsplit : df.rows = rows₁ ++ row :: rows₂)
    (hm : rowMatches row d c) (hv : rowLevel (levelColumn df) row = some v)
    (h15 : 1 ≤ v ∧ v ≤ 5) (hafter : ∀ r ∈ rows₂, ¬ rowMatches r d c) :
    dictGet (processRows qb (levelColumn df) (hasCheckboxCols df) (hasOverrideCols df)
        (applyWrites s (globalWrites df)) df.rows) (get_qkey d c) =
      some (Value.vInt v) := by
  have h0 : (d, c) ∈ bank_pairs qb := mem_bank_pairs hd hc
  have hdg : dictGet qb d = some cs := dictGet_of_mem_nodup qb hok.1 hd
  rw [hsplit, processRows_append, processRows_cons]
  rw [dictGet_processRows_of_ne qb _ _ _ _ rows₂ _
    (fun r hr => rowWrites_ne_qkey qb _ _ _ r hok h0 (Or.inl (hafter r hr)))]
  exact dictGet_applyWrites_matched qb _ _ _ row _ hdg hc hm hv h15

/-- C8: the import mutates answer state only for (Dimension, Concept) pairs
recognized in the bank; a bank pair matched by no imported row keeps its
previous answer binding, and a matched row with a valid level writes exactly
that answer (the last matching row wins), all without error. -/
theorem C8_partial_import_frame (qb : List (String × List String))
    (s : List (String × Value)) (df : Df) (hok : bank_keys_ok qb)
    (hcols : "Dimension" ∈ df.columns ∧ "Concept" ∈ df.columns) :
    ∃ out, auto_load_answers_from_csv qb s df = .ok out ∧
      (∀ d cs c, (d, cs) ∈ qb → c ∈ cs →
        (∀ row ∈ df.rows, ¬ rowMatches row d c) →
        dictGet out.1 (get_qkey d c) = dictGet s (get_qkey d c)) ∧
      (∀ d cs c v rows₁ row rows₂, (d, cs) ∈ qb → c ∈ cs →
        df.rows = rows₁ ++ row :: rows₂ →
        rowMatches row d c →
        rowLevel (levelColumn df) row = some v → 1 ≤ v → v ≤ 5 →
        (∀ r ∈ rows₂, ¬ rowMatches r d c) →
        dictGet out.1 (get_qkey d c) = some (Value.vInt v)) := by
  refine ⟨(processRows qb (levelColumn df) (hasCheckboxCols df) (hasOverrideCols df)
      (applyWrites s (globalWrites df)) df.rows,
    (df.rows.map (fun row => rowLoaded qb (levelColumn df) (hasCheckboxCols df) row)).sum,
    importCompanyName df), import_ok qb s df hcols, ?_, ?_⟩
  · intro d cs c hd hc hnm
    exact import_state_untouched qb s df hok (mem_bank_pairs hd hc)
      (fun row hr => Or.inl (hnm row hr))
  · intro d cs c v rows₁ row rows₂ hd hc hsplit hm hv h1 h5 hafter
    exact import_state_matched qb s df hok hd hc hsplit hm hv ⟨h1, h5⟩ hafter

/-- Witness for C8: a two-dimension bank, one matching row applied and one
unknown row skipped; the second bank pair has no matching row. -/
theorem C8_partial_import_frame_witness :
    bank_keys_ok [("1. Data Readiness", ["Historical Data", "Data Integration"]),
      ("6. Security & Regulatory Compliance", ["Cybersecurity Measures"])] ∧
    ("Dimension" ∈ (Df.mk ["Dimension", "Concept", "Selected level"]
        [[("Dimension", Cell.str "1. Data Readiness"),
          ("Concept", Cell.str "Historical Data"),
          ("Selected level", Cell.int 4)],
         [("Dimension", Cell.str "9. Unknown"), ("Concept", Cell.str "X"),
          ("Selected level", Cell.int 2)]]).columns ∧
      "Concept" ∈ (Df.mk ["Dimension", "Concept", "Selected level"]
        [[("Dimension", Cell.str "1. Data Readiness"),
          ("Concept", Cell.str "Historical Data"),
          ("Selected level", Cell.int 4)],
         [("Dimension", Cell.str "9. Unknown"), ("Concept", Cell.str "X"),
          ("Selected level", Cell.int 2)]]).columns) ∧
    (∃ out, auto_load_answers_from_csv
        [("1. Data Readiness", ["Historical Data", "Data Integration"]),
         ("6. Security & Regulatory Compliance", ["Cybersecurity Measures"])]
        [] (Df.mk ["Dimension", "Concept", "Selected level"]
          [[("Dimension", Cell.str "1. Data Readiness"),
            ("Concept", Cell.str "Historical Data"),
            ("Selected level", Cell.int 4)],
           [("Dimension", Cell.str "9. Unknown"), ("Concept", Cell.str "X"),
            ("Selected level", Cell.int 2)]]) = .ok out ∧
      (∀ d cs c, (d, cs) ∈ [("1. Data Readiness", ["Historical Data", "Data Integration"]),
          ("6. Security & Regulatory Compliance", ["Cybersecurity Measures"])] → c ∈ cs →
        (∀ row ∈ (Df.mk ["Dimension", "Concept", "Selected level"]
          [[("Dimension", Cell.str "1. Data Readiness"),
            ("Concept", Cell.str "Historical Data"),
            ("Selected level", Cell.int 4)],
           [("Dimension", Cell.str "9. Unknown"), ("Concept", Cell.str "X"),
            ("Selected level", Cell.int 2)]]).rows, ¬ rowMatches row d c) →
        dictGet out.1 (get_qkey d c) = dictGet [] (get_qkey d c)) ∧
      (∀ d cs c v rows₁ row rows₂,
        (d, cs) ∈ [("1. Data Readiness", ["Historical Data", "Data Integration"]),
          ("6. Security & Regulatory Compliance", ["Cybersecurity Measures"])] → c ∈ cs →
        (Df.mk ["Dimension", "Concept", "Selected level"]
          [[("Dimension", Cell.str "1. Data Readiness"),
            ("Concept", Cell.str "Historical Data"),
            ("Selected level", Cell.int 4)],
           [("Dimension", Cell.str "9. Unknown"), ("Concept", Cell.str "X"),
            ("Selected level", Cell.int 2)]]).rows = rows₁ ++ row :: rows₂ →
        rowMatches row d c →
        rowLevel (levelColumn (Df.mk ["Dimension", "Concept", "Selected level"]
          [[("Dimension", Cell.str "1. Data Readiness"),
            ("Concept", Cell.str "Historical Data"),
            ("Selected level", Cell.int 4)],
           [("Dimension", Cell.str "9. Unknown"), ("Concept", Cell.str "X"),
            ("Selected level", Cell.int 2)]])) row = some v → 1 ≤ v → v ≤ 5 →
        (∀ r ∈ rows₂, ¬ rowMatches r d c) →
        dictGet out.1 (get_qkey d c) = some (Value.vInt v))) :=
  ⟨by decide, ⟨by decide, by decide⟩,
    C8_partial_import_frame _ _ _ (by decide) ⟨by decide, by decide⟩⟩

theorem pyIntOfFloat_intCast (n : Int) : pyIntOfFloat ((n : ℚ)) = n := by
  simp [pyIntOfFloat, Rat.num_intCast, Rat.den_intCast, Int.tdiv_one]

theorem export_row_dim_cell (minL : List (String × Int)) (session : List (String × Value))
    (company d : String) (cs : List String) (c : String) :
    dictGetD (export_row minL session company d cs c) "Dimension" Cell.pynone =
      Cell.str d := by
  simp [export_row, global_fields, dictGetD, dictGet, List.find?]

theorem export_row_concept_cell (minL : List (String × Int))
    (session : List (String × Value)) (company d : String) (cs : List String)
    (c : String) :
    dictGetD (export_row minL session company d cs c) "Concept" Cell.pynone =
      Cell.str c := by
  simp [export_row, global_fields, dictGetD, dictGet, List.find?]

theorem export_row_final_cell (minL : List (String × Int))
    (session : List (String × Value)) (company : String) {d : String}
    {cs : List String} {c : String} {l : Int}
    (hl : dictGet session (get_qkey d c) = some (Value.vInt l)) (h15 : 1 ≤ l ∧ l ≤ 5) :
    dictGetD (export_row minL session company d cs c) "Final level" Cell.pynone =
      Cell.int l := by
  simp only [export_row, global_fields]
  rw [hl]
  simp [levelFromValue, h15, dictGetD, dictGet, List.find?, Option.elim]

theorem export_rowMatches_iff (minL : List (String × Int))
    (session : List (String × Value)) (company : String) {d' : String}
    {cs' : List String} {c' : String} (hd' : pyStrip d' = d') (hc' : pyStrip c' = c')
    (d c : String) :
    rowMatches (export_row minL session company d' cs' c') d c ↔ (d' = d ∧ c' = c) := by
  unfold rowMatches
  rw [export_row_dim_cell, export_row_concept_cell]
  simp [pyStr, hd', hc']

theorem export_row_rowLevel (minL : List (String × Int))
    (session : List (String × Value)) (company : String) {d : String}
    {cs : List String} {c : String} {l : Int}
    (hl : dictGet session (get_qkey d c) = some (Value.vInt l)) (h15 : 1 ≤ l ∧ l ≤ 5) :
    rowLevel (some "Final level") (export_row minL session company d cs c) = some l := by
  simp [rowLevel, export_row_final_cell minL session company hl h15, to_int_or_none,
    pyFloat?, pyIntOfFloat_intCast]

theorem not_mem_of_nodup_middle {α : Type} {f : α → String} {L R : List α} {x : α}
    (h : ((L ++ x :: R).map f).Nodup) : f x ∉ L.map f ∧ f x ∉ R.map f := by
  simp only [List.map_append, List.map_cons] at h
  rcases List.nodup_append.mp h with ⟨h1, h2, hdisj⟩
  refine ⟨fun hmem => hdisj hmem (List.mem_cons_self _ _), (List.nodup_cons.mp h2).1⟩

/-- C2: exporting a fully answered response set and re-importing the table
into a fresh session reproduces the identical final level at every
(Dimension, Concept) answer key, and hence identical per-dimension floor
averages. -/
theorem C2_export_import_roundtrip (qb : List (String × List String))
    (minL : List (String × Int)) (session : List (String × Value)) (company : String)
    (hok : bank_keys_ok qb)
    (hans : ∀ p ∈ qb, ∀ c ∈ p.2, (answeredLevel session p.1 c).isSome = true) :
    ∃ out,
      auto_load_answers_from_csv qb []
        ( build_export_df_partial qb minL session company) = .ok out ∧
      (∀ d cs c, (d, cs) ∈ qb → c ∈ cs →
        dictGet out.1 (get_qkey d c) = dictGet session (get_qkey d c)) ∧
      (∀ d cs, (d, cs) ∈ qb →
        floor_avg (cs.map (fun c => (levelFromValue (dictGet out.1 (get_qkey d c))).getD 0)) =
          floor_avg (cs.map (fun c =>
            (levelFromValue (dictGet session (get_qkey d c))).getD 0))) := by
  set df := build_export_df_partial qb minL session company with hdf
  have hEC : df.columns = EXPORT_COLUMNS := by
    rw [hdf]
    rfl
  have hcols : "Dimension" ∈ df.columns ∧ "Concept" ∈ df.columns := by
    rw [hEC]
    exact ⟨by decide, by decide⟩
  have hlc : levelColumn df = some "Final level" := by
    simp only [levelColumn, hEC]
    decide
  have key : ∀ d cs c, (d, cs) ∈ qb → c ∈ cs →
      dictGet (processRows qb (levelColumn df) (hasCheckboxCols df) (hasOverrideCols df)
          (applyWrites [] (globalWrites df)) df.rows) (get_qkey d c) =
        dictGet session (get_qkey d c) := by
    intro d cs c hd hc
    obtain ⟨l, hl, h15⟩ := answeredLevel_spec session d c (hans (d, cs) hd c hc)
    obtain ⟨qb₁, qb₂, hq⟩ := List.append_of_mem hd
    obtain ⟨cs₁, cs₂, hcs⟩ := List.append_of_mem hc
    have htrim := hok.2.2.2
    have hdt : pyStrip d = d := (htrim (d, cs) hd).1
    have hct : ∀ x ∈ cs, pyStrip x = x := (htrim (d, cs) hd).2
    have hrows : df.rows =
        (qb₁.flatMap (fun p => p.2.map (fun c' => export_row minL session company p.1 p.2 c')) ++
          cs₁.map (fun c' => export_row minL session company d cs c')) ++
        export_row minL session company d cs c ::
        (cs₂.map (fun c' => export_row minL session company d cs c') ++
          qb₂.flatMap (fun p => p.2.map (fun c' => export_row minL session company p.1 p.2 c'))) := by
      rw [hdf]
      show ( build_export_df_partial qb minL session company).rows = _
      simp only [ build_export_df_partial]
      rw [hq]
      simp only [List.flatMap_append, List.flatMap_cons]
      rw [show cs.map (fun c' => export_row minL session company d cs c') =
          cs₁.map (fun c' => export_row minL session company d cs c') ++
          export_row minL session company d cs c ::
          cs₂.map (fun c' => export_row minL session company d cs c') by
        rw [hcs, List.map_append, List.map_cons]]
      simp [List.append_assoc]
    have hpairs : bank_pairs qb =
        (bank_pairs qb₁ ++ cs₁.map (fun c' => (d, c'))) ++
        (d, c) :: (cs₂.map (fun c' => (d, c')) ++ bank_pairs qb₂) := by
      unfold bank_pairs
      rw [hq]
      simp only [List.flatMap_append, List.flatMap_cons]
      rw [show cs.map (fun c' => (d, c')) =
          cs₁.map (fun c' => (d, c')) ++ (d, c) :: cs₂.map (fun c' => (d, c')) by
        rw [hcs, List.map_append, List.map_cons]]
      simp [bank_pairs, List.append_assoc]
    have hnd : ((bank_pairs qb).map (fun p => get_qkey p.1 p.2)).Nodup := by
      have h := hok.2.1
      simpa [qkeys] using h
    rw [hpairs] at hnd
    have hmid := not_mem_of_nodup_middle (f := fun p : String × String => get_qkey p.1 p.2) hnd
    have hafter : ∀ r ∈ (cs₂.map (fun c' => export_row minL session company d cs c') ++
        qb₂.flatMap (fun p => p.2.map (fun c' => export_row minL session company p.1 p.2 c'))),
        ¬ rowMatches r d c := by
      intro r hr
      rcases List.mem_append.mp hr with hr | hr
      · obtain ⟨c'', hc'', rfl⟩ := List.mem_map.mp hr
        have hc''cs : c'' ∈ cs := by
          rw [hcs]
          exact List.mem_append.mpr (Or.inr (List.mem_cons_of_mem _ hc''))
        rw [export_rowMatches_iff minL session company hdt (hct c'' hc''cs)]
        rintro ⟨-, rfl⟩
        exact hmid.2 (List.mem_map.mpr
          ⟨(d, c''), List.mem_append.mpr (Or.inl (List.mem_map.mpr ⟨c'', hc'', rfl⟩)), rfl⟩)
      · obtain ⟨p', hp', hr'⟩ := List.mem_flatMap.mp hr
        obtain ⟨c', hc', rfl⟩ := List.mem_map.mp hr'
        have hp'mem : p' ∈ qb := by
          rw [hq]
          exact List.mem_append.mpr (Or.inr (List.mem_cons_of_mem _ hp'))
        have hdt' : pyStrip p'.1 = p'.1 := (htrim p' hp'mem).1
        have hct' : pyStrip c' = c' := (htrim p' hp'mem).2 c' hc'
        rw [export_rowMatches_iff minL session company hdt' hct']
        rintro ⟨hde, hce⟩
        refine hmid.2 (List.mem_map.mpr ⟨(p'.1, c'), ?_, by rw [hde, hce]⟩)
        exact List.mem_append.mpr (Or.inr (mem_bank_pairs (by exact hp') hc'))
    have hm : rowMatches (export_row minL session company d cs c) d c := by
      rw [export_rowMatches_iff minL session company hdt (hct c hc)]
      exact ⟨rfl, rfl⟩
    have hv : rowLevel (levelColumn df) (export_row minL session company d cs c) = some l := by
      rw [hlc]
      exact export_row_rowLevel minL session company hl h15
    rw [hl]
    exact import_state_matched qb [] df hok hd hc hrows hm hv h15 hafter
  refine ⟨(processRows qb (levelColumn df) (hasCheckboxCols df) (hasOverrideCols df)
      (applyWrites [] (globalWrites df)) df.rows,
    (df.rows.map (fun row => rowLoaded qb (levelColumn df) (hasCheckboxCols df) row)).sum,
    importCompanyName df), import_ok qb [] df hcols, key, ?_⟩
  intro d cs hd
  have hmaps : cs.map (fun c =>
      (levelFromValue (dictGet (processRows qb (levelColumn df) (hasCheckboxCols df)
        (hasOverrideCols df) (applyWrites [] (globalWrites df)) df.rows) (get_qkey d c))).getD 0) =
      cs.map (fun c => (levelFromValue (dictGet session (get_qkey d c))).getD 0) := by
    apply List.map_congr_left
    intro c hc
    rw [key d cs c hd hc]
  rw [hmaps]

/-- Witness for C2 at a concrete bank, fully answered session and export. -/
theorem C2_export_import_roundtrip_witness :
    bank_keys_ok [("1. Data Readiness", ["Historical Data", "Data Integration"]),
      ("6. Security & Regulatory Compliance", ["Cybersecurity Measures"])] ∧
    (∀ p ∈ [("1. Data Readiness", ["Historical Data", "Data Integration"]),
        ("6. Security & Regulatory Compliance", ["Cybersecurity Measures"])],
      ∀ c ∈ p.2, (answeredLevel
        [("1. Data Readiness::Historical Data", Value.vInt 4),
         ("1. Data Readiness::Data Integration", Value.vInt 2),
         ("6. Security & Regulatory Compliance::Cybersecurity Measures", Value.vInt 5)]
        p.1 c).isSome = true) ∧
    (∃ out,
      auto_load_answers_from_csv
        [("1. Data Readiness", ["Historical Data", "Data Integration"]),
         ("6. Security & Regulatory Compliance", ["Cybersecurity Measures"])] []
        ( build_export_df_partial
          [("1. Data Readiness", ["Historical Data", "Data Integration"]),
           ("6. Security & Regulatory Compliance", ["Cybersecurity Measures"])]
          MINIMUM_LEVELS
          [("1. Data Readiness::Historical Data", Value.vInt 4),
           ("1. Data Readiness::Data Integration", Value.vInt 2),
           ("6. Security & Regulatory Compliance::Cybersecurity Measures", Value.vInt 5)]
          "ACME") = .ok out ∧
      (∀ d cs c, (d, cs) ∈ [("1. Data Readiness", ["Historical Data", "Data Integration"]),
          ("6. Security & Regulatory Compliance", ["Cybersecurity Measures"])] → c ∈ cs →
        dictGet out.1 (get_qkey d c) = dictGet
          [("1. Data Readiness::Historical Data", Value.vInt 4),
           ("1. Data Readiness::Data Integration", Value.vInt 2),
           ("6. Security & Regulatory Compliance::Cybersecurity Measures", Value.vInt 5)]
          (get_qkey d c)) ∧
      (∀ d cs, (d, cs) ∈ [("1. Data Readiness", ["Historical Data", "Data Integration"]),
          ("6. Security & Regulatory Compliance", ["Cybersecurity Measures"])] →
        floor_avg (cs.map (fun c => (levelFromValue (dictGet out.1 (get_qkey d c))).getD 0)) =
          floor_avg (cs.map (fun c => (levelFromValue (dictGet
            [("1. Data Readiness::Historical Data", Value.vInt 4),
             ("1. Data Readiness::Data Integration", Value.vInt 2),
             ("6. Security & Regulatory Compliance::Cybersecurity Measures", Value.vInt 5)]
            (get_qkey d c))).getD 0)))) :=
  ⟨by decide, by decide,
    C2_export_import_roundtrip _ MINIMUM_LEVELS _ "ACME" (by decide) (by decide)⟩

theorem pyIntOfFloat_nonneg (q : ℚ) (h : 0 ≤ q) : pyIntOfFloat q = ⌊q⌋ := by
  unfold pyIntOfFloat
  rw [Rat.floor_def]
  exact Int.tdiv_eq_ediv (Rat.num_nonneg.mpr h) (Int.natCast_nonneg _)

/-- C7 counterexample: a fractional "Final level" cell of 3.7 is not
discarded — `int(float(x))` truncates it to 3, which is accepted, so
the loaded state holds final level 3 for the matching pair. -/
theorem C7_truncation_counterexample :
    ∃ out, auto_load_answers_from_csv [("1. Data Readiness", ["Data Integration"])] []
        (Df.mk ["Dimension", "Concept", "Final level"]
          [[("Dimension", Cell.str "1. Data Readiness"),
            ("Concept", Cell.str "Data Integration"),
            ("Final level", Cell.rat (37 / 10))]]) = .ok out ∧
      dictGet out.1 (get_qkey "1. Data Readiness" "Data Integration") =
        some (Value.vInt 3) := by
  have h37 : pyIntOfFloat ((37 : ℚ) / 10) = 3 := by
    rw [pyIntOfFloat_nonneg _ (by norm_num)]
    norm_num
  have hv : rowLevel (levelColumn (Df.mk ["Dimension", "Concept", "Final level"]
      [[("Dimension", Cell.str "1. Data Readiness"),
        ("Concept", Cell.str "Data Integration"),
        ("Final level", Cell.rat (37 / 10))]]))
      [("Dimension", Cell.str "1. Data Readiness"),
       ("Concept", Cell.str "Data Integration"),
       ("Final level", Cell.rat (37 / 10))] = some 3 := by
    have hlc : levelColumn (Df.mk ["Dimension", "Concept", "Final level"]
        [[("Dimension", Cell.str "1. Data Readiness"),
          ("Concept", Cell.str "Data Integration"),
          ("Final level", Cell.rat (37 / 10))]]) = some "Final level" := by decide
    rw [hlc]
    simp [rowLevel, dictGetD, dictGet, List.find?, to_int_or_none, pyFloat?, h37]
  have hd : dictGet [("1. Data Readiness", ["Data Integration"])] "1. Data Readiness" =
      some ["Data Integration"] := by decide
  have hcin : "Data Integration" ∈ ["Data Integration"] := by decide
  have hm : rowMatches
      [("Dimension", Cell.str "1. Data Readiness"),
       ("Concept", Cell.str "Data Integration"),
       ("Final level", Cell.rat (37 / 10))] "1. Data Readiness" "Data Integration" := by
    decide
  refine ⟨_, import_ok _ _ _ ⟨by decide, by decide⟩, ?_⟩
  show dictGet (processRows _ _ _ _ _ _) _ = _
  rw [processRows_cons]
  show dictGet (applyWrites _ _) _ = _
  exact dictGet_applyWrites_matched _ _ _ _ _ _ hd hcin hm hv (by decide)

/-- C7 amended: a matched row whose level cell does not convert (via Python
`int(float(·))`, which truncates toward zero) to an integer in 1–5 sets no
final level for its pair, and the import still succeeds; unlike the original
claim, a fractional cell that truncates into 1–5 is accepted. -/
theorem C7_invalid_level_discarded (qb : List (String × List String))
    (s : List (String × Value)) (df : Df) (d : String) (cs : List String) (c : String)
    (hok : bank_keys_ok qb)
    (hcols : "Dimension" ∈ df.columns ∧ "Concept" ∈ df.columns)
    (hd : (d, cs) ∈ qb) (hc : c ∈ cs)
    (hinv : ∀ row ∈ df.rows, rowMatches row d c →
      ∀ v, rowLevel (levelColumn df) row = some v → ¬ (1 ≤ v ∧ v ≤ 5)) :
    ∃ out, auto_load_answers_from_csv qb s df = .ok out ∧
      dictGet out.1 (get_qkey d c) = dictGet s (get_qkey d c) := by
  refine ⟨_, import_ok qb s df hcols, ?_⟩
  exact import_state_untouched qb s df hok (mem_bank_pairs hd hc)
    (fun row hr => by
      by_cases hm : rowMatches row d c
      · exact Or.inr (fun v hv => hinv row hr hm v hv)
      · exact Or.inl hm)

/-- Witness for C7's amended theorem: a non-numeric level cell is discarded
and the pair's answer key stays absent. -/
theorem C7_invalid_level_discarded_witness :
    bank_keys_ok [("1. Data Readiness", ["Data Integration"])] ∧
    ("Dimension" ∈ (Df.mk ["Dimension", "Concept", "Final level"]
        [[("Dimension", Cell.str "1. Data Readiness"),
          ("Concept", Cell.str "Data Integration"),
          ("Final level", Cell.str "not a number")]]).columns ∧
     "Concept" ∈ (Df.mk ["Dimension", "Concept", "Final level"]
        [[("Dimension", Cell.str "1. Data Readiness"),
          ("Concept", Cell.str "Data Integration"),
          ("Final level", Cell.str "not a number")]]).columns) ∧
    (("1. Data Readiness", ["Data Integration"]) ∈
      [("1. Data Readiness", ["Data Integration"])]) ∧
    ("Data Integration" ∈ ["Data Integration"]) ∧
    (∃ out, auto_load_answers_from_csv [("1. Data Readiness", ["Data Integration"])] []
        (Df.mk ["Dimension", "Concept", "Final level"]
          [[("Dimension", Cell.str "1. Data Readiness"),
            ("Concept", Cell.str "Data Integration"),
            ("Final level", Cell.str "not a number")]]) = .ok out ∧
      dictGet out.1 (get_qkey "1. Data Readiness" "Data Integration") =
        dictGet [] (get_qkey "1. Data Readiness" "Data Integration")) :=
  ⟨by decide, ⟨by decide, by decide⟩, by decide, by decide,
    C7_invalid_level_discarded _ [] _ "1. Data Readiness" ["Data Integration"]
      "Data Integration" (by decide) ⟨by decide, by decide⟩ (by decide) (by decide)
      (by
        intro row hr hm v hv
        simp only [List.mem_singleton] at hr
        subst hr
        have hnone : rowLevel (levelColumn (Df.mk ["Dimension", "Concept", "Final level"]
            [[("Dimension", Cell.str "1. Data Readiness"),
              ("Concept", Cell.str "Data Integration"),
              ("Final level", Cell.str "not a number")]]))
            [("Dimension", Cell.str "1. Data Readiness"),
             ("Concept", Cell.str "Data Integration"),
             ("Final level", Cell.str "not a number")] = Option.none := by decide
        rw [hnone] at hv
        exact absurd hv (by simp))⟩
